import Mathlib

/-!
Verification of the AxiomHive hybrid-model core: a shallow embedding of
the fusion orchestrator (`axiomhive/__init__.py`) and the cryptographic
attestation engine (`axiomhive/core/attestation.py`), together with
theorems about the properties stated in the specification.

Modelling conventions:
- Python dicts become association lists with string keys (`Dict`); Python
  dict keys are unique, and lookups are first-match.
- JSON-serializable Python values become the inductive `JVal`; floats are
  carried by their JSON textual form (their `repr`), since the code never
  computes with them, only stores and serializes them.
- `hashlib.sha256` is implemented bit-faithfully (FIPS 180-4) over `Nat`
  with explicit reduction mod 2^32; `json.dumps(·, sort_keys=True)` with
  its default separators and `ensure_ascii` escaping is implemented over
  `JVal`.
- The wall clock (`datetime.utcnow().isoformat()`) becomes an explicit
  timestamp argument: every place the Python code samples the clock, the
  embedding takes the sampled value as an input.
- Exceptions become `Except PyErr`; the repository defines no exception
  classes of its own, and the only exception its code can raise is a
  `KeyError` from a missing dict key.
-/

/-! ## SHA-256 (FIPS 180-4), as computed by `hashlib.sha256` -/

/-- Reduction of a natural number to a 32-bit word. -/
def w32 (n : Nat) : Nat := n % 4294967296

/-- Right rotation of a 32-bit word by `n` bits. -/
def rotr32 (n x : Nat) : Nat := w32 ((x >>> n) ||| (x <<< (32 - n)))

/-- Big sigma-0 compression function of SHA-256. -/
def bsig0 (x : Nat) : Nat := (rotr32 2 x) ^^^ (rotr32 13 x) ^^^ (rotr32 22 x)

/-- Big sigma-1 compression function of SHA-256. -/
def bsig1 (x : Nat) : Nat := (rotr32 6 x) ^^^ (rotr32 11 x) ^^^ (rotr32 25 x)

/-- Small sigma-0 message-schedule function of SHA-256. -/
def ssig0 (x : Nat) : Nat := (rotr32 7 x) ^^^ (rotr32 18 x) ^^^ (x >>> 3)

/-- Small sigma-1 message-schedule function of SHA-256. -/
def ssig1 (x : Nat) : Nat := (rotr32 17 x) ^^^ (rotr32 19 x) ^^^ (x >>> 10)

/-- Choice function of SHA-256. -/
def chFn (e f g : Nat) : Nat := (e &&& f) ^^^ ((e ^^^ 4294967295) &&& g)

/-- Majority function of SHA-256. -/
def majFn (a b c : Nat) : Nat := (a &&& b) ^^^ (a &&& c) ^^^ (b &&& c)

/-- The 64 SHA-256 round constants. -/
def sha256K : List Nat :=
  [1116352408, 1899447441, 3049323471, 3921009573, 961987163, 1508970993,
   2453635748, 2870763221, 3624381080, 310598401, 607225278, 1426881987,
   1925078388, 2162078206, 2614888103, 3248222580, 3835390401, 4022224774,
   264347078, 604807628, 770255983, 1249150122, 1555081692, 1996064986,
   2554220882, 2821834349, 2952996808, 3210313671, 3336571891, 3584528711,
   113926993, 338241895, 666307205, 773529912, 1294757372, 1396182291,
   1695183700, 1986661051, 2177026350, 2456956037, 2730485921, 2820302411,
   3259730800, 3345764771, 3516065817, 3600352804, 4094571909, 275423344,
   430227734, 506948616, 659060556, 883997877, 958139571, 1322822218,
   1537002063, 1747873779, 1955562222, 2024104815, 2227730452, 2361852424,
   2428436474, 2756734187, 3204031479, 3329325298]

/-- The SHA-256 initial hash state. -/
def sha256H0 : List Nat :=
  [1779033703, 3144134277, 1013904242, 2773480762,
   1359893119, 2600822924, 528734635, 1541459225]

/-- Big-endian byte decomposition: the `k` lowest bytes of `n`, most significant first. -/
def toBytesBE : Nat → Nat → List Nat
  | 0, _ => []
  | k+1, n => toBytesBE k (n >>> 8) ++ [n % 256]

/-- SHA-256 message padding: append `0x80`, zeros to 56 mod 64, then the bit length. -/
def padMsg (msg : List Nat) : List Nat :=
  msg ++ 0x80 :: List.replicate ((119 - msg.length % 64) % 64) 0 ++ toBytesBE 8 (8 * msg.length)

/-- Group a byte list into big-endian 32-bit words. -/
def bytesToWords : List Nat → List Nat
  | a :: b :: c :: d :: t => (a * 16777216 + b * 65536 + c * 256 + d) :: bytesToWords t
  | _ => []

/-- Message-schedule extension; `acc` holds the schedule produced so far in reverse order. -/
def extendLoop : Nat → List Nat → List Nat
  | 0, acc => acc
  | k+1, acc =>
      extendLoop k
        (w32 (ssig1 (acc.getD 1 0) + acc.getD 6 0 + ssig0 (acc.getD 14 0) + acc.getD 15 0) :: acc)

/-- The 64-word message schedule of one 16-word block. -/
def schedule (block : List Nat) : List Nat := (extendLoop 48 block.reverse).reverse

/-- Working state of the SHA-256 compression loop. -/
abbrev Sha2State := Nat × Nat × Nat × Nat × Nat × Nat × Nat × Nat

/-- One round of the SHA-256 compression loop. -/
def roundStep (st : Sha2State) (kw : Nat × Nat) : Sha2State :=
  match st with
  | (a, b, c, d, e, f, g, h) =>
    let t1 := w32 (h + bsig1 e + chFn e f g + kw.1 + kw.2)
    let t2 := w32 (bsig0 a + majFn a b c)
    (w32 (t1 + t2), a, b, c, w32 (d + t1), e, f, g)

/-- Compression of one 16-word block into the running hash state. -/
def compress (hs : List Nat) (block : List Nat) : List Nat :=
  match hs with
  | [h0, h1, h2, h3, h4, h5, h6, h7] =>
    match (List.zip sha256K (schedule block)).foldl roundStep (h0, h1, h2, h3, h4, h5, h6, h7) with
    | (a, b, c, d, e, f, g, h) =>
      [w32 (h0 + a), w32 (h1 + b), w32 (h2 + c), w32 (h3 + d),
       w32 (h4 + e), w32 (h5 + f), w32 (h6 + g), w32 (h7 + h)]
  | _ => hs

/-- Fold the compression function over all 16-word blocks of the padded message. -/
def processBlocks : List Nat → List Nat → List Nat
  | hs, w0 :: w1 :: w2 :: w3 :: w4 :: w5 :: w6 :: w7 :: w8 :: w9 :: w10 :: w11 :: w12 :: w13 :: w14 :: w15 :: rest =>
      processBlocks (compress hs [w0, w1, w2, w3, w4, w5, w6, w7, w8, w9, w10, w11, w12, w13, w14, w15]) rest
  | hs, _ => hs

/-- SHA-256 digest (32 bytes) of a byte sequence. -/
def sha256Bytes (msg : List Nat) : List Nat :=
  ((processBlocks sha256H0 (bytesToWords (padMsg msg))).map (toBytesBE 4)).flatten

/-- Lowercase hexadecimal digit. -/
def hexChar (n : Nat) : Char := if n < 10 then Char.ofNat (48 + n) else Char.ofNat (87 + n)

/-- Lowercase hexadecimal rendering of a byte sequence, as `hexdigest()` produces. -/
def bytesToHex (bs : List Nat) : String :=
  String.mk ((bs.map (fun b => [hexChar (b / 16), hexChar (b % 16)])).flatten)

/-- UTF-8 encoding of one character, as Python `str.encode()` produces. -/
def utf8Bytes (c : Char) : List Nat :=
  let n := c.toNat
  if n < 128 then [n]
  else if n < 2048 then [192 + n / 64, 128 + n % 64]
  else if n < 65536 then [224 + n / 4096, 128 + n / 64 % 64, 128 + n % 64]
  else [240 + n / 262144, 128 + n / 4096 % 64, 128 + n / 64 % 64, 128 + n % 64]

/-- UTF-8 encoding of a string, as Python `str.encode()` produces. -/
def utf8Encode (s : String) : List Nat := (s.data.map utf8Bytes).flatten

/-- The composite `hashlib.sha256(s.encode()).hexdigest()` used throughout the sources. -/
def sha256HexStr (s : String) : String := bytesToHex (sha256Bytes (utf8Encode s))

/-! ## Python string comparison (code-point lexicographic) -/

/-- Lexicographic comparison of character lists by Unicode code point; this is exactly
how Python compares two `str` values, and hence how `sorted`/`sort_keys` orders keys. -/
def charsLe : List Char → List Char → Bool
  | [], _ => true
  | _ :: _, [] => false
  | c :: cs, d :: ds => if c = d then charsLe cs ds else decide (c.toNat < d.toNat)

/-- Python `a <= b` on strings. -/
def pyStrLe (a b : String) : Bool := charsLe a.data b.data

/-! ## The JSON value model and `json.dumps(·, sort_keys=True)` -/

/-- JSON-serializable Python values. Numbers are carried by their JSON textual
form (the shortest `repr` of the float, e.g. `"0.96"`), since the repository
never computes with a number: it only stores numbers in records and serializes
them. -/
inductive JVal where
  | str (s : String)
  | num (r : String)
  | jbool (b : Bool)
  | jnull
  | arr (l : List JVal)
  | obj (l : List (String × JVal))

/-- A Python dict with string keys: an insertion-ordered association list.
Python dict keys are unique; lookups are first-match. -/
abbrev Dict := List (String × JVal)

/-- Join rendered items with the default `json.dumps` item separator. -/
def joinComma : List String → String
  | [] => ""
  | [s] => s
  | s :: t => s ++ ", " ++ joinComma t

/-- Four lowercase hexadecimal digits, as in a JSON `\uXXXX` escape. -/
def hex4 (n : Nat) : List Char :=
  [hexChar (n / 4096 % 16), hexChar (n / 256 % 16), hexChar (n / 16 % 16), hexChar (n % 16)]

/-- Escaping of one character by `json.dumps` with its default `ensure_ascii=True`:
backslash, quote and the short control escapes, `\uXXXX` for other control or
non-ASCII characters (with surrogate pairs above U+FFFF), and all printable
ASCII kept verbatim. -/
def escChar (c : Char) : List Char :=
  let n := c.toNat
  if c = '\\' then ['\\', '\\']
  else if c = '"' then ['\\', '"']
  else if n = 8 then ['\\', 'b']
  else if n = 9 then ['\\', 't']
  else if n = 10 then ['\\', 'n']
  else if n = 12 then ['\\', 'f']
  else if n = 13 then ['\\', 'r']
  else if n < 32 then '\\' :: 'u' :: hex4 n
  else if n < 127 then [c]
  else if n < 65536 then '\\' :: 'u' :: hex4 n
  else ('\\' :: 'u' :: hex4 (55296 + ((n - 65536) >>> 10))) ++
       ('\\' :: 'u' :: hex4 (56320 + ((n - 65536) &&& 1023)))

/-- JSON rendering of a string literal, quotes included. -/
def encStr (s : String) : String :=
  "\"" ++ String.mk (s.data.foldr (fun c acc => escChar c ++ acc) []) ++ "\""

/-- Ordering of rendered object items by key, using Python string comparison;
`json.dumps(..., sort_keys=True)` emits object items sorted this way. -/
def pairLe (a b : String × String) : Prop := charsLe a.1.data b.1.data = true

instance : DecidableRel pairLe :=
  fun a b => inferInstanceAs (Decidable (charsLe a.1.data b.1.data = true))

/-- Rendering of one already-serialized object item with the default key separator. -/
def renderPair (p : String × String) : String := encStr p.1 ++ ": " ++ p.2

mutual
/-- The serialization `json.dumps(v, sort_keys=True, default=str)` with default
separators. Object items are emitted in sorted key order. (The source sorts the
items and then serializes each value; serializing the values first and then
sorting the rendered items by key produces the identical string, because the
sort compares keys only.) `default=str` never fires on `JVal`, which covers
exactly the JSON-serializable values the repository builds. -/
def dumps : JVal → String
  | .str s => encStr s
  | .num r => r
  | .jbool b => if b then "true" else "false"
  | .jnull => "null"
  | .arr l => "[" ++ joinComma (dumpsList l) ++ "]"
  | .obj l =>
      "\x7b" ++ joinComma ((List.insertionSort pairLe (renderItems l)).map renderPair) ++ "\x7d"
termination_by structural v => v

/-- Serialization of the elements of a JSON array, in order. -/
def dumpsList : List JVal → List String
  | [] => []
  | v :: t => dumps v :: dumpsList t
termination_by structural l => l

/-- Serialization of the values of object items, keys kept, insertion order kept. -/
def renderItems : List (String × JVal) → List (String × String)
  | [] => []
  | (k, v) :: t => (k, dumps v) :: renderItems t
termination_by structural l => l
end


/-! ## The fusion orchestrator (`AxiomHiveHybridModel`, `axiomhive/__init__.py`) -/

/-- The value held in `self.reasoning_mode`. The four constructors are the members
of the `ReasoningMode` enum; `other s` models any Python value that is not a member
of the enum (annotated or not, Python does not prevent one), for which equality
comparison against every enum member is `False`. -/
inductive PyMode where
  | symbolic
  | probabilistic
  | hybrid
  | voting
  | other (repr : String)

/-- The exceptions the repository's code can raise. The code defines no exception
classes of its own; the only raising operation in it is a dict subscript, which
raises `KeyError` when the key is absent. -/
inductive PyErr where
  | keyError (k : String)

/-- Python `d[k]` on a dict, first-match lookup over the association list. -/
def dictGet : Dict → String → Option JVal
  | [], _ => none
  | (k, v) :: t, key => if k = key then some v else dictGet t key

/-- Python `d[k]`: the value, or a raised `KeyError`. -/
def dictGetE (d : Dict) (k : String) : Except PyErr JVal :=
  match dictGet d k with
  | some v => .ok v
  | none => .error (.keyError k)

mutual
/-- Python `str()` as applied by f-string interpolation in `_orchestrate`.
It is exact for the scalar values that can sit in a `reasoning` field
(`str` interpolates verbatim, floats print their `repr`, `True`/`False`/`None`
print their names). Containers are rendered structurally; the repository only
ever interpolates string-valued `reasoning` fields, and every theorem below
hypothesizes a string there, so the container branches are never relied upon. -/
def pyStr : JVal → String
  | .str s => s
  | .num r => r
  | .jbool b => if b then "True" else "False"
  | .jnull => "None"
  | .arr l => "[" ++ joinComma (pyStrList l) ++ "]"
  | .obj l => "\x7b" ++ joinComma (pyStrItems l) ++ "\x7d"
termination_by structural v => v

def pyStrList : List JVal → List String
  | [] => []
  | v :: t => ("'" ++ pyStr v ++ "'") :: pyStrList t
termination_by structural l => l

def pyStrItems : List (String × JVal) → List String
  | [] => []
  | (k, v) :: t => ("'" ++ k ++ "': '" ++ pyStr v ++ "'") :: pyStrItems t
termination_by structural l => l
end

/-- The method `AxiomHiveHybridModel._orchestrate(symbolic, probabilistic)`,
with `self.reasoning_mode` passed explicitly. `SYMBOLIC` returns the symbolic
record verbatim and `PROBABILISTIC` the probabilistic record verbatim; every
other mode value, the two remaining enum members included, falls into the
final `else` branch, which builds the fused record
`decision / confidence / reasoning / symbolic_weight / probabilistic_weight`
in that insertion order. -/
def orchestrate (mode : PyMode) (symbolic probabilistic : Dict) : Except PyErr Dict :=
  match mode with
  | .symbolic => .ok symbolic
  | .probabilistic => .ok probabilistic
  | _ => do
      let dec ← dictGetE symbolic "decision"
      let sreason ← dictGetE symbolic "reasoning"
      let preason ← dictGetE probabilistic "reasoning"
      .ok [("decision", dec),
           ("confidence", (dictGet probabilistic "confidence").getD (.num "0.5")),
           ("reasoning", .str ("Symbolic: " ++ pyStr sreason ++ "; Probabilistic: " ++ pyStr preason)),
           ("symbolic_weight", .num "0.6"),
           ("probabilistic_weight", .num "0.4")]

/-- The stub `_symbolic_reasoning`: a fixed record, the input ignored. -/
def symbolicReasoningStub (_input : JVal) (_verify_constraints : Bool) : Dict :=
  [("decision", .str "APPROVED"),
   ("reasoning", .str "Constraint satisfaction verified via formal logic"),
   ("verified", .jbool true)]

/-- The stub `_probabilistic_inference`: a fixed record, the input ignored. -/
def probabilisticInferenceStub (_input : JVal) : Dict :=
  [("decision", .str "APPROVED"),
   ("confidence", .num "0.96"),
   ("reasoning", .str "Pattern recognition confidence 96%")]

/-- The method `AxiomHiveHybridModel._generate_attestation(output)`:
the SHA-256 hex digest of `json.dumps(output, sort_keys=True, default=str)`. -/
def generateAttestationHash (output : Dict) : String := sha256HexStr (dumps (.obj output))

/-- The dataclass `HybridOutput`. Fields that Python types as `str`/`float` are
modelled as `JVal` because `process` fills them from untyped dict lookups. -/
structure HybridOutput where
  output : JVal
  reasoning_path : JVal
  confidence_score : JVal
  formal_verification : Bool
  attestation_hash : Option String := none
  symbolic_contribution : JVal := .num "0.0"
  probabilistic_contribution : JVal := .num "0.0"
  compliance_verified : Bool := false

/-- The method `AxiomHiveHybridModel.process(input_data, require_explanation,
verify_constraints)`, with the constructor-configured `reasoning_mode` and
`attestation_enabled` passed explicitly. It runs the two stub engines, fuses
their records via `_orchestrate`, optionally attests the fused dict, and
assembles the `HybridOutput` (with `compliance_verified=True` hardcoded). -/
def process (mode : PyMode) (attestation_enabled : Bool) (input_data : JVal)
    (require_explanation verify_constraints : Bool) : Except PyErr HybridOutput := do
  let symbolic_result := symbolicReasoningStub input_data verify_constraints
  let probabilistic_result := probabilisticInferenceStub input_data
  let fused ← orchestrate mode symbolic_result probabilistic_result
  let attestation_hash := if attestation_enabled then some (generateAttestationHash fused) else none
  let dec ← dictGetE fused "decision"
  .ok
    { output := dec
      reasoning_path := if require_explanation then (dictGet fused "reasoning").getD (.str "") else .str ""
      confidence_score := (dictGet fused "confidence").getD (.num "0.0")
      formal_verification := verify_constraints
      attestation_hash := attestation_hash
      symbolic_contribution := (dictGet fused "symbolic_weight").getD (.num "0.0")
      probabilistic_contribution := (dictGet fused "probabilistic_weight").getD (.num "0.0")
      compliance_verified := true }

/-- The method `AxiomHiveHybridModel.verify_output(output, attestation_hash)`:
it rebuilds a dict with keys `output` / `reasoning_path` / `confidence_score`,
hashes its sorted-keys serialization, and compares with the supplied digest. -/
def verify_output (output : HybridOutput) (attestation_hash : String) : Bool :=
  let output_dict : Dict :=
    [("output", output.output),
     ("reasoning_path", output.reasoning_path),
     ("confidence_score", output.confidence_score)]
  sha256HexStr (dumps (.obj output_dict)) == attestation_hash

/-! ## The attestation engine (`CryptographicAttestationEngine`, `attestation.py`) -/

/-- One entry of the engine's `attestation_log`. -/
structure AttestationEntry where
  hash : String
  timestamp : String
  strategy : String
deriving DecidableEq

/-- The engine's state: the configured strategy label and the in-memory log. -/
structure CryptographicAttestationEngine where
  strategy : String := "sha256"
  attestation_log : List AttestationEntry := []
deriving DecidableEq

/-- The serialized form `json.dumps(attestation_dict, sort_keys=True, default=str)`
of the dict `{"output": output, "metadata": metadata or {}, "timestamp": t}`,
where `t` is the freshly sampled `datetime.utcnow().isoformat()` value. -/
def attestationCanonical (output : JVal) (metadata : Option Dict) (t : String) : String :=
  dumps (.obj [("output", output), ("metadata", .obj (metadata.getD [])), ("timestamp", .str t)])

/-- The method `generate_attestation(output, metadata=None)`. The freshly sampled
timestamp is the explicit argument `t`. Returns the hex digest and the engine
with `{hash, timestamp, strategy}` appended to its log. -/
def generate_attestation (e : CryptographicAttestationEngine) (output : JVal)
    (metadata : Option Dict) (t : String) : String × CryptographicAttestationEngine :=
  let attestation_hash := sha256HexStr (attestationCanonical output metadata t)
  (attestation_hash,
   { e with attestation_log :=
      e.attestation_log ++ [{ hash := attestation_hash, timestamp := t, strategy := e.strategy }] })

/-- The method `verify_attestation(output, attestation_hash, metadata=None)`:
it recomputes the digest over a freshly sampled timestamp `t` (a new clock
sample, not the one used at generation) and compares. It reads no state and
mutates nothing. -/
def verify_attestation (output : JVal) (attestation_hash : String)
    (metadata : Option Dict) (t : String) : Bool :=
  sha256HexStr (attestationCanonical output metadata t) == attestation_hash

/-- The method `get_audit_trail()`: `return self.attestation_log`. -/
def get_audit_trail (e : CryptographicAttestationEngine) : List AttestationEntry :=
  e.attestation_log

/-- A sequence of `generate_attestation` calls on one engine: each call supplies a
payload, optional metadata, and the timestamp the clock produced at that call.
Returns the digests in call order and the final engine state. -/
def runGenerates (e : CryptographicAttestationEngine) :
    List (JVal × Option Dict × String) → List String × CryptographicAttestationEngine
  | [] => ([], e)
  | (p, m, t) :: rest =>
      let step := generate_attestation e p m t
      let tail := runGenerates step.2 rest
      (step.1 :: tail.1, tail.2)

/-- The generate-then-verify round trip of one `process` call: run `process` with
attestation enabled, then feed the produced output and its own attestation hash
back into `verify_output`. Returns `none` when the call failed or produced no
hash. -/
def processVerifyRoundTrip (m : PyMode) (input_data : JVal)
    (require_explanation verify_constraints : Bool) : Option Bool :=
  (process m true input_data require_explanation verify_constraints).toOption.bind fun h =>
    h.attestation_hash.map fun a => verify_output h a

/-! ## Reference semantics of the returned log (for the snapshot question)

Python lists are mutable heap objects and `return self.attestation_log` returns
the object itself, not a copy. To state aliasing, a minimal heap is made
explicit: a store of list objects addressed by ids, with the engine's
`attestation_log` attribute holding an id into it. -/

/-- A store of Python list objects, addressed by object id. -/
abbrev ListHeap := List (List AttestationEntry)

/-- The engine's attribute record under reference semantics: `attestation_log`
holds the id of a heap-allocated list. -/
structure EngineRef where
  strategy : String
  logRef : Nat

/-- Reading a list object from the heap. -/
def heapRead (heap : ListHeap) (r : Nat) : List AttestationEntry := heap.getD r []

/-- A caller-side `lst.append(x)` on the list object with id `r`. -/
def heapAppend (heap : ListHeap) (r : Nat) (x : AttestationEntry) : ListHeap :=
  heap.set r (heapRead heap r ++ [x])

/-- The method `get_audit_trail()` under reference semantics:
`return self.attestation_log` hands the caller the very id the engine holds. -/
def get_audit_trail_ref (e : EngineRef) : Nat := e.logRef

/-! ## Lemmas: the code-point order on keys and sorted-key determinism -/

/-- Sanity equation: the serializer emits sorted keys with the default separators. -/
lemma dumps_sorts_keys : dumps (.obj [("b", .num "0.5"), ("a", .jbool true)]) =
    "\x7b\"a\": true, \"b\": 0.5\x7d" := by decide

/-- Sanity equation: the SHA-256 implementation reproduces the FIPS 180-4 test
vector for the message "abc". -/
lemma sha256_abc_test_vector : sha256HexStr "abc" =
    "ba7816bf8f01cfea414140de5dae2223b00361a396177a9cb410ff61f20015ad" := by decide

/-- Characters with equal code points are equal. -/
lemma char_toNat_inj {a b : Char} (h : a.toNat = b.toNat) : a = b :=
  Char.ext (UInt32.ext h)

/-- Totality of the Python string comparison. -/
lemma charsLe_total : ∀ a b : List Char, charsLe a b = true ∨ charsLe b a = true := by
  intro a
  induction a with
  | nil => intro b; left; rfl
  | cons c cs ih =>
    intro b
    cases b with
    | nil => right; rfl
    | cons d ds =>
      by_cases hcd : c = d
      · subst hcd
        simpa [charsLe] using ih ds
      · have hne : c.toNat ≠ d.toNat := fun h => hcd (char_toNat_inj h)
        have hdc : ¬ d = c := fun h2 => hcd h2.symm
        rcases Nat.lt_or_gt_of_ne hne with h | h
        · left; simp [charsLe, hcd, h]
        · right; simp [charsLe, hdc, h]

/-- Transitivity of the Python string comparison. -/
lemma charsLe_trans : ∀ a b c : List Char,
    charsLe a b = true → charsLe b c = true → charsLe a c = true := by
  intro a
  induction a with
  | nil => intro b c _ _; rfl
  | cons x xs ih =>
    intro b c hab hbc
    cases b with
    | nil => simp [charsLe] at hab
    | cons y ys =>
      cases c with
      | nil => simp [charsLe] at hbc
      | cons z zs =>
        by_cases hxy : x = y
        · subst hxy
          by_cases hxz : x = z
          · subst hxz
            simp only [charsLe, if_pos rfl] at hab hbc ⊢
            exact ih ys zs hab hbc
          · simp only [charsLe, if_pos rfl] at hab
            simp only [charsLe, if_neg hxz] at hbc ⊢
            exact hbc
        · by_cases hyz : y = z
          · subst hyz
            simp only [charsLe, if_neg hxy] at hab ⊢
            exact hab
          · simp only [charsLe, if_neg hxy] at hab
            simp only [charsLe, if_neg hyz] at hbc
            have hxz : x.toNat < z.toNat :=
              Nat.lt_trans (of_decide_eq_true hab) (of_decide_eq_true hbc)
            have hxz' : ¬ x = z := fun h => Nat.lt_irrefl _ (h ▸ hxz)
            simp [charsLe, hxz', hxz]

/-- Antisymmetry of the Python string comparison. -/
lemma charsLe_antisymm : ∀ a b : List Char,
    charsLe a b = true → charsLe b a = true → a = b := by
  intro a
  induction a with
  | nil =>
    intro b _ hba
    cases b with
    | nil => rfl
    | cons d ds => simp [charsLe] at hba
  | cons c cs ih =>
    intro b hab hba
    cases b with
    | nil => simp [charsLe] at hab
    | cons d ds =>
      by_cases hcd : c = d
      · subst hcd
        simp only [charsLe, if_pos rfl] at hab hba
        rw [ih ds hab hba]
      · have hdc : ¬ d = c := fun h2 => hcd h2.symm
        simp only [charsLe, if_neg hcd] at hab
        simp only [charsLe, if_neg hdc] at hba
        exact absurd (of_decide_eq_true hba) (Nat.lt_asymm (of_decide_eq_true hab))

instance : IsTotal (String × String) pairLe :=
  ⟨fun a b => charsLe_total a.1.data b.1.data⟩

instance : IsTrans (String × String) pairLe :=
  ⟨fun a b c hab hbc => charsLe_trans a.1.data b.1.data c.1.data hab hbc⟩

/-- Two sorted item lists that are permutations of each other and have duplicate-free
keys are equal: sorting by key is a canonical order for dict items. -/
lemma sorted_key_nodup_eq {l₁ l₂ : List (String × String)} (hp : l₁.Perm l₂)
    (hs₁ : List.Sorted pairLe l₁) (hs₂ : List.Sorted pairLe l₂)
    (hn : (l₁.map Prod.fst).Nodup) : l₁ = l₂ := by
  have hn₂ : (l₂.map Prod.fst).Nodup := ((hp.map Prod.fst).nodup) hn
  have hne₁ : l₁.Pairwise (fun a b : String × String => a.1 ≠ b.1) := List.pairwise_map.mp hn
  have hne₂ : l₂.Pairwise (fun a b : String × String => a.1 ≠ b.1) := List.pairwise_map.mp hn₂
  have hs₁' : l₁.Pairwise (fun a b => pairLe a b ∧ a.1 ≠ b.1) := List.Pairwise.and hs₁ hne₁
  have hs₂' : l₂.Pairwise (fun a b => pairLe a b ∧ a.1 ≠ b.1) := List.Pairwise.and hs₂ hne₂
  have hanti : IsAntisymm (String × String) (fun a b => pairLe a b ∧ a.1 ≠ b.1) :=
    ⟨fun a b h1 h2 => absurd (String.ext (charsLe_antisymm _ _ h1.1 h2.1)) h1.2⟩
  exact @List.eq_of_perm_of_sorted _ _ hanti _ _ hp hs₁' hs₂'

/-- Sorting rendered items is invariant under permutation when keys are duplicate-free. -/
lemma insertionSort_perm_nodup_eq {x y : List (String × String)} (hp : x.Perm y)
    (hn : (x.map Prod.fst).Nodup) :
    List.insertionSort pairLe x = List.insertionSort pairLe y := by
  apply sorted_key_nodup_eq
  · exact (List.perm_insertionSort pairLe x).trans (hp.trans (List.perm_insertionSort pairLe y).symm)
  · exact List.sorted_insertionSort pairLe x
  · exact List.sorted_insertionSort pairLe y
  · exact ((List.perm_insertionSort pairLe x).map Prod.fst).symm.nodup hn

/-- The item-rendering pass is the map that serializes each value and keeps the key. -/
lemma renderItems_eq_map : ∀ l : Dict, renderItems l = l.map (fun kv => (kv.1, dumps kv.2)) := by
  intro l
  induction l with
  | nil => rfl
  | cons kv t ih => cases kv with | mk k v => simp [renderItems, ih]

/-- Congruence for object serialization through the sorted rendered items. -/
lemma dumps_obj_congr {l₁ l₂ : Dict}
    (h : List.insertionSort pairLe (renderItems l₁) = List.insertionSort pairLe (renderItems l₂)) :
    dumps (.obj l₁) = dumps (.obj l₂) := by
  simp only [dumps]
  rw [h]

/-- Serialization of an object is invariant under permutation of its items when
its keys are duplicate-free (as dict keys always are). -/
lemma dumps_obj_perm {l₁ l₂ : Dict} (hp : l₁.Perm l₂) (hn : (l₁.map Prod.fst).Nodup) :
    dumps (.obj l₁) = dumps (.obj l₂) := by
  apply dumps_obj_congr
  apply insertionSort_perm_nodup_eq
  · rw [renderItems_eq_map, renderItems_eq_map]
    exact hp.map _
  · rw [renderItems_eq_map]
    simpa [List.map_map, Function.comp] using hn

/-! ## Claim theorems -/

/-- C3: for every payload and metadata, verification recomputes the digest over the
timestamp freshly sampled at verification time, so — barring a SHA-256 collision
between the two serializations, which the hypothesis excludes — the round trip
`verify_attestation(P, generate_attestation(P, M), M)` succeeds exactly when the
two clock samples coincide, and returns false whenever they differ. -/
theorem C3_verify_recomputes_fresh_timestamp (e : CryptographicAttestationEngine)
    (P : JVal) (M : Option Dict) (t1 t2 : String)
    (hcol : sha256HexStr (attestationCanonical P M t2) =
        sha256HexStr (attestationCanonical P M t1) → t1 = t2) :
    (verify_attestation P (generate_attestation e P M t1).1 M t2 = true ↔ t1 = t2) := by
  simp only [verify_attestation, generate_attestation]
  constructor
  · intro h
    exact hcol (beq_iff_eq.mp h)
  · intro h
    subst h
    exact beq_self_eq_true _

/-- Witness for C3: a concrete generate-then-verify round trip in which the two clock
samples differ by one second returns false; the digests are computed concretely. -/
theorem C3_witness :
    verify_attestation (.obj [("decision", .str "APPROVED")])
      (generate_attestation ⟨"sha256", []⟩ (.obj [("decision", .str "APPROVED")]) none
        "2024-01-01T00:00:00").1 none "2024-01-01T00:00:01" = false := by
  have h := C3_verify_recomputes_fresh_timestamp ⟨"sha256", []⟩
    (.obj [("decision", .str "APPROVED")]) none
    "2024-01-01T00:00:00" "2024-01-01T00:00:01" (by decide)
  by_cases hb : verify_attestation (.obj [("decision", .str "APPROVED")])
      (generate_attestation ⟨"sha256", []⟩ (.obj [("decision", .str "APPROVED")]) none
        "2024-01-01T00:00:00").1 none "2024-01-01T00:00:01" = true
  · exact absurd (h.mp hb) (by decide)
  · simpa using hb

/-- C4: holding the timestamp fixed, serializing a payload dict and a metadata dict
with their keys in any permuted insertion order (keys being duplicate-free, as dict
keys are) yields the identical canonical byte sequence, hence `generate_attestation`
produces the identical SHA-256 hex digest and `verify_attestation` accepts the
digest generated from the permuted twin. -/
theorem C4_canonicalization_key_order_invariant
    (e e' : CryptographicAttestationEngine) (P P' M M' : Dict) (t : String)
    (hP : P.Perm P') (hM : M.Perm M')
    (hPn : (P.map Prod.fst).Nodup) (hMn : (M.map Prod.fst).Nodup) :
    attestationCanonical (.obj P) (some M) t = attestationCanonical (.obj P') (some M') t ∧
    (generate_attestation e (.obj P) (some M) t).1 =
      (generate_attestation e' (.obj P') (some M') t).1 ∧
    verify_attestation (.obj P') (generate_attestation e (.obj P) (some M) t).1 (some M') t
      = true := by
  have h1 : dumps (.obj P) = dumps (.obj P') := dumps_obj_perm hP hPn
  have h2 : dumps (.obj M) = dumps (.obj M') := dumps_obj_perm hM hMn
  have hcanon : attestationCanonical (.obj P) (some M) t =
      attestationCanonical (.obj P') (some M') t := by
    unfold attestationCanonical
    apply dumps_obj_congr
    simp only [Option.getD_some, renderItems]
    rw [h1, h2]
  refine ⟨hcanon, ?_, ?_⟩
  · simp only [generate_attestation]
    rw [hcanon]
  · simp only [verify_attestation, generate_attestation]
    rw [hcanon]
    exact beq_self_eq_true _

/-- Witness for C4: a concrete payload and metadata, each with two keys inserted in
the opposite order, serialize identically, hash identically, and cross-verify. -/
theorem C4_witness :
    attestationCanonical (.obj [("decision", .str "APPROVED"), ("score", .num "0.3")])
      (some [("framework", .str "ISO42001"), ("policy", .str "v1")]) "2024-01-01T00:00:00" =
    attestationCanonical (.obj [("score", .num "0.3"), ("decision", .str "APPROVED")])
      (some [("policy", .str "v1"), ("framework", .str "ISO42001")]) "2024-01-01T00:00:00" ∧
    (generate_attestation ⟨"sha256", []⟩
      (.obj [("decision", .str "APPROVED"), ("score", .num "0.3")])
      (some [("framework", .str "ISO42001"), ("policy", .str "v1")]) "2024-01-01T00:00:00").1 =
    (generate_attestation ⟨"sha256", []⟩
      (.obj [("score", .num "0.3"), ("decision", .str "APPROVED")])
      (some [("policy", .str "v1"), ("framework", .str "ISO42001")]) "2024-01-01T00:00:00").1 ∧
    verify_attestation (.obj [("score", .num "0.3"), ("decision", .str "APPROVED")])
      (generate_attestation ⟨"sha256", []⟩
        (.obj [("decision", .str "APPROVED"), ("score", .num "0.3")])
        (some [("framework", .str "ISO42001"), ("policy", .str "v1")]) "2024-01-01T00:00:00").1
      (some [("policy", .str "v1"), ("framework", .str "ISO42001")]) "2024-01-01T00:00:00"
      = true :=
  C4_canonicalization_key_order_invariant ⟨"sha256", []⟩ ⟨"sha256", []⟩
    [("decision", .str "APPROVED"), ("score", .num "0.3")]
    [("score", .num "0.3"), ("decision", .str "APPROVED")]
    [("framework", .str "ISO42001"), ("policy", .str "v1")]
    [("policy", .str "v1"), ("framework", .str "ISO42001")]
    "2024-01-01T00:00:00"
    (List.Perm.swap _ _ _) (List.Perm.swap _ _ _) (by decide) (by decide)

/-- Equation for the fusion branch of `_orchestrate` when the three accessed keys
are present. -/
lemma orchestrate_fusion_eq {d p : Dict} {dv sv pv : JVal}
    (hdv : dictGet d "decision" = some dv)
    (hsv : dictGet d "reasoning" = some sv)
    (hpv : dictGet p "reasoning" = some pv) :
    orchestrate .hybrid d p = .ok
      [("decision", dv),
       ("confidence", (dictGet p "confidence").getD (.num "0.5")),
       ("reasoning", .str ("Symbolic: " ++ pyStr sv ++ "; Probabilistic: " ++ pyStr pv)),
       ("symbolic_weight", .num "0.6"),
       ("probabilistic_weight", .num "0.4")] := by
  simp [orchestrate, dictGetE, hdv, hsv, hpv, Bind.bind, Except.bind]

/-- C1: under HYBRID or VOTING, fusion returns the record whose decision is the
deterministic record's decision (whatever the probabilistic record decided and at
whatever confidence), whose confidence is the probabilistic record's (0.5 when it
has none), whose reasoning is the tagged concatenation of the two reasonings, and
whose weights are the constants 0.6 and 0.4. -/
theorem C1_hybrid_voting_fusion (m : PyMode) (hm : m = .hybrid ∨ m = .voting)
    (d p : Dict) (dv : JVal) (sr pr : String)
    (hd : dictGet d "decision" = some dv)
    (hsr : dictGet d "reasoning" = some (.str sr))
    (hpr : dictGet p "reasoning" = some (.str pr)) :
    orchestrate m d p = .ok
      [("decision", dv),
       ("confidence", (dictGet p "confidence").getD (.num "0.5")),
       ("reasoning", .str ("Symbolic: " ++ sr ++ "; Probabilistic: " ++ pr)),
       ("symbolic_weight", .num "0.6"),
       ("probabilistic_weight", .num "0.4")] := by
  rcases hm with rfl | rfl <;>
    exact orchestrate_fusion_eq hd hsr hpr

/-- Witness for C1: the specification's concrete scenario — a deterministic APPROVED
against a probabilistic REJECTED at confidence 0.3 fuses under HYBRID to APPROVED
at confidence 0.3 with weights 0.6/0.4. -/
theorem C1_witness :
    orchestrate .hybrid
      [("decision", .str "APPROVED"), ("reasoning", .str "rule R3 satisfied"),
       ("verified", .jbool true)]
      [("decision", .str "REJECTED"), ("confidence", .num "0.3"),
       ("reasoning", .str "anomaly score high")] = .ok
      [("decision", .str "APPROVED"),
       ("confidence", .num "0.3"),
       ("reasoning", .str "Symbolic: rule R3 satisfied; Probabilistic: anomaly score high"),
       ("symbolic_weight", .num "0.6"),
       ("probabilistic_weight", .num "0.4")] :=
  C1_hybrid_voting_fusion .hybrid (Or.inl rfl)
    [("decision", .str "APPROVED"), ("reasoning", .str "rule R3 satisfied"),
     ("verified", .jbool true)]
    [("decision", .str "REJECTED"), ("confidence", .num "0.3"),
     ("reasoning", .str "anomaly score high")]
    (.str "APPROVED") "rule R3 satisfied" "anomaly score high" rfl rfl rfl

/-- C2 counterexample: under SYMBOLIC mode the orchestrator returns the deterministic
record verbatim, which carries no `symbolic_weight` key at all — refuting, at a
concrete input, the claim that the result comes with weights 1.0/0.0. -/
theorem C2_counterexample :
    ¬ ∀ r : Dict, orchestrate .symbolic (symbolicReasoningStub .jnull true)
        (probabilisticInferenceStub .jnull) = .ok r →
        dictGet r "symbolic_weight" = some (.num "1.0") := by
  intro h
  have h2 := h (symbolicReasoningStub .jnull true) rfl
  exact Option.noConfusion (h2 : (none : Option JVal) = some (.num "1.0"))

/-- C2 amended: under SYMBOLIC the orchestrator returns the deterministic record
verbatim and under PROBABILISTIC the probabilistic record verbatim — in particular
without adding any weight keys, so downstream weight lookups fall back to their
0.0 defaults rather than 1.0/0.0 and 0.0/1.0. -/
theorem C2_mode_purity_verbatim : ∀ d p : Dict,
    orchestrate .symbolic d p = .ok d ∧ orchestrate .probabilistic d p = .ok p :=
  fun _ _ => ⟨rfl, rfl⟩

/-- C5 counterexample: invoked with a mode value that is none of the four enum
members, `_orchestrate` does not raise anything — there is no `InvalidModeError`
anywhere in the code — but silently returns the HYBRID/VOTING fusion record. -/
theorem C5_counterexample :
    ¬ ∃ err : PyErr, orchestrate (.other "not-a-mode") (symbolicReasoningStub .jnull true)
        (probabilisticInferenceStub .jnull) = .error err := by
  rintro ⟨err, h⟩
  have h2 : (orchestrate (.other "not-a-mode") (symbolicReasoningStub .jnull true)
      (probabilisticInferenceStub .jnull)).isOk = true := rfl
  rw [h] at h2
  exact Bool.noConfusion (h2 : false = true)

/-- C5 amended: an unrecognized mode value is not rejected: the dispatch falls
through to the final else branch, so fusing under it is literally the same
computation as under HYBRID; and on records that contain the accessed keys
(`decision` and `reasoning` on the deterministic side, `reasoning` on the
probabilistic side) every mode value whatsoever produces a result and raises
nothing. -/
theorem C5_unknown_mode_silently_fuses (s : String) (d p : Dict)
    (h1 : (dictGet d "decision").isSome = true)
    (h2 : (dictGet d "reasoning").isSome = true)
    (h3 : (dictGet p "reasoning").isSome = true) :
    orchestrate (.other s) d p = orchestrate .hybrid d p ∧
    ∀ m : PyMode, ∃ r : Dict, orchestrate m d p = .ok r := by
  refine ⟨rfl, ?_⟩
  intro m
  obtain ⟨dv, hdv⟩ := Option.isSome_iff_exists.mp h1
  obtain ⟨sv, hsv⟩ := Option.isSome_iff_exists.mp h2
  obtain ⟨pv, hpv⟩ := Option.isSome_iff_exists.mp h3
  cases m with
  | symbolic => exact ⟨d, rfl⟩
  | probabilistic => exact ⟨p, rfl⟩
  | hybrid => exact ⟨_, orchestrate_fusion_eq hdv hsv hpv⟩
  | voting => exact ⟨_, orchestrate_fusion_eq hdv hsv hpv⟩
  | other s2 => exact ⟨_, orchestrate_fusion_eq hdv hsv hpv⟩

/-- Witness for the amended C5, at the two stub records and a concrete junk mode. -/
theorem C5_amended_witness :
    orchestrate (.other "weird") (symbolicReasoningStub .jnull true)
        (probabilisticInferenceStub .jnull) =
      orchestrate .hybrid (symbolicReasoningStub .jnull true)
        (probabilisticInferenceStub .jnull) ∧
    ∀ m : PyMode, ∃ r : Dict, orchestrate m (symbolicReasoningStub .jnull true)
        (probabilisticInferenceStub .jnull) = .ok r :=
  C5_unknown_mode_silently_fuses "weird" (symbolicReasoningStub .jnull true)
    (probabilisticInferenceStub .jnull) rfl rfl rfl

/-- Helper for C7: whatever comes out of the fusion branch carries the deterministic
record's decision value. -/
lemma orchestrate_hybrid_decision {d p r : Dict} (h : orchestrate .hybrid d p = .ok r) :
    dictGet r "decision" = dictGet d "decision" := by
  cases hdv : dictGet d "decision" with
  | none => simp [orchestrate, dictGetE, hdv, Bind.bind, Except.bind] at h
  | some dv =>
    cases hsv : dictGet d "reasoning" with
    | none => simp [orchestrate, dictGetE, hdv, hsv, Bind.bind, Except.bind] at h
    | some sv =>
      cases hpv : dictGet p "reasoning" with
      | none => simp [orchestrate, dictGetE, hdv, hsv, hpv, Bind.bind, Except.bind] at h
      | some pv =>
        rw [orchestrate_fusion_eq hdv hsv hpv, Except.ok.injEq] at h
        rw [← h]
        simp [dictGet, hdv]

/-- C7: for every pair of input records and every mode value, a fused result's
decision is verbatim one of the two input decisions — the orchestrator never
synthesizes a decision label that appeared in neither input. -/
theorem C7_decision_verbatim_from_inputs (m : PyMode) (d p r : Dict)
    (h : orchestrate m d p = .ok r) :
    dictGet r "decision" = dictGet d "decision" ∨
    dictGet r "decision" = dictGet p "decision" := by
  cases m with
  | symbolic =>
    injection h with h
    subst h
    exact Or.inl rfl
  | probabilistic =>
    injection h with h
    subst h
    exact Or.inr rfl
  | hybrid => exact Or.inl (orchestrate_hybrid_decision h)
  | voting => exact Or.inl (orchestrate_hybrid_decision (h : orchestrate .hybrid d p = .ok r))
  | other s => exact Or.inl (orchestrate_hybrid_decision (h : orchestrate .hybrid d p = .ok r))

/-- Witness for C7: the stub records fused under HYBRID yield the deterministic
record's decision. -/
theorem C7_witness :
    dictGet
      [("decision", .str "APPROVED"),
       ("confidence", .num "0.96"),
       ("reasoning", .str
         "Symbolic: Constraint satisfaction verified via formal logic; Probabilistic: Pattern recognition confidence 96%"),
       ("symbolic_weight", .num "0.6"),
       ("probabilistic_weight", .num "0.4")] "decision" =
      dictGet (symbolicReasoningStub .jnull true) "decision" ∨
    dictGet
      [("decision", .str "APPROVED"),
       ("confidence", .num "0.96"),
       ("reasoning", .str
         "Symbolic: Constraint satisfaction verified via formal logic; Probabilistic: Pattern recognition confidence 96%"),
       ("symbolic_weight", .num "0.6"),
       ("probabilistic_weight", .num "0.4")] "decision" =
      dictGet (probabilisticInferenceStub .jnull) "decision" :=
  C7_decision_verbatim_from_inputs .hybrid (symbolicReasoningStub .jnull true)
    (probabilisticInferenceStub .jnull) _ rfl

/-- C6: a sequence of N `generate_attestation` calls appends exactly N entries to the
audit trail, in call order, each entry's hash being that call's returned digest (and
its timestamp that call's clock sample); nothing is removed or reordered, and the
digests list has exactly length N. -/
theorem C6_audit_log_append_only :
    ∀ (calls : List (JVal × Option Dict × String)) (e : CryptographicAttestationEngine),
    get_audit_trail (runGenerates e calls).2 =
      get_audit_trail e ++
        List.zipWith (fun h c => { hash := h, timestamp := c.2.2, strategy := e.strategy })
          (runGenerates e calls).1 calls ∧
    (runGenerates e calls).1.length = calls.length := by
  intro calls
  induction calls with
  | nil => intro e; exact ⟨(List.append_nil _).symm, rfl⟩
  | cons c rest ih =>
    intro e
    obtain ⟨p, m, t⟩ := c
    have h := ih { e with attestation_log :=
      e.attestation_log ++ [{ hash := sha256HexStr (attestationCanonical p m t),
                              timestamp := t, strategy := e.strategy }] }
    simp only [runGenerates, generate_attestation, get_audit_trail, List.zipWith,
      List.length_cons] at h ⊢
    rw [h.1]
    exact ⟨by simp [List.append_assoc], by rw [h.2]⟩

/-- C8 counterexample: `get_audit_trail` returns the log object itself (an alias),
so a caller-side append through the returned value changes the engine's internal
log — refuting, on a concrete heap, the claim that caller mutations leave the
internal log unchanged. -/
theorem C8_counterexample :
    heapRead (heapAppend [[]] (get_audit_trail_ref ⟨"sha256", 0⟩)
        { hash := "h", timestamp := "t", strategy := "sha256" }) (0 : Nat) ≠
      heapRead [[]] (0 : Nat) := by
  decide

/-- C8 amended: `get_audit_trail` returns the internal list itself, not a copy or an
immutable view: a mutation performed through the returned value is a mutation of the
engine's internal log, visible at the engine's own reference. -/
theorem C8_trail_is_alias (heap : ListHeap) (e : EngineRef) (x : AttestationEntry)
    (hr : e.logRef < heap.length) :
    get_audit_trail_ref e = e.logRef ∧
    heapRead (heapAppend heap (get_audit_trail_ref e) x) e.logRef =
      heapRead heap e.logRef ++ [x] := by
  refine ⟨rfl, ?_⟩
  simp only [heapRead, heapAppend, get_audit_trail_ref]
  rw [List.getD_eq_getElem?_getD, List.getElem?_set_self hr, Option.getD_some]

/-- Witness for the amended C8: on a one-cell heap holding an empty log, an append
through the trail returned by `get_audit_trail` lands in the engine's log. -/
theorem C8_witness :
    get_audit_trail_ref ⟨"sha256", 0⟩ = (0 : Nat) ∧
    heapRead (heapAppend [[]] (get_audit_trail_ref ⟨"sha256", 0⟩)
        { hash := "h", timestamp := "t", strategy := "sha256" }) (0 : Nat) =
      heapRead [[]] (0 : Nat) ++ [{ hash := "h", timestamp := "t", strategy := "sha256" }] :=
  C8_trail_is_alias [[]] ⟨"sha256", 0⟩
    { hash := "h", timestamp := "t", strategy := "sha256" } (by decide)

/-- C10: the `HybridOutput` produced by `process` always reports
`compliance_verified = True`, and `formal_verification` is simply the
`verify_constraints` argument passed in — neither field results from any check. -/
theorem C10_compliance_fields_unconditional (m : PyMode) (ae : Bool) (input : JVal)
    (re vc : Bool) (h : HybridOutput) (hp : process m ae input re vc = .ok h) :
    h.compliance_verified = true ∧ h.formal_verification = vc := by
  cases m <;> cases ae <;> (injection hp with hp; subst hp; exact ⟨rfl, rfl⟩)

/-- Witness for C10: a concrete configuration with `verify_constraints = false`
still reports `compliance_verified = true` and `formal_verification = false`. -/
theorem C10_witness :
    ∃ h : HybridOutput, process .voting true (.str "input") false false = .ok h ∧
      h.compliance_verified = true ∧ h.formal_verification = false :=
  ⟨_, rfl, C10_compliance_fields_unconditional .voting true (.str "input") false false _ rfl⟩

set_option maxRecDepth 100000 in
/-- Concrete evaluation: in SYMBOLIC mode the round trip always reports false. -/
lemma roundTrip_symbolic_false : ∀ re vc : Bool,
    processVerifyRoundTrip .symbolic .jnull re vc = some false := by
  intro re vc
  cases re <;> cases vc <;> decide!

set_option maxRecDepth 100000 in
/-- Concrete evaluation: in PROBABILISTIC mode the round trip always reports false. -/
lemma roundTrip_probabilistic_false : ∀ re vc : Bool,
    processVerifyRoundTrip .probabilistic .jnull re vc = some false := by
  intro re vc
  cases re <;> cases vc <;> decide!

set_option maxRecDepth 100000 in
/-- Concrete evaluation: in HYBRID mode the round trip always reports false. -/
lemma roundTrip_hybrid_false : ∀ re vc : Bool,
    processVerifyRoundTrip .hybrid .jnull re vc = some false := by
  intro re vc
  cases re <;> cases vc <;> decide!

/-- The round trip records exactly the `verify_output` verdict on the produced
output and its own attestation hash. -/
lemma roundTrip_eq {m : PyMode} {input : JVal} {re vc : Bool}
    {h : HybridOutput} {a : String}
    (hp : process m true input re vc = .ok h)
    (ha : h.attestation_hash = some a) :
    processVerifyRoundTrip m input re vc = some (verify_output h a) := by
  unfold processVerifyRoundTrip
  rw [hp]
  show (h.attestation_hash.map fun aa => verify_output h aa) = some (verify_output h a)
  rw [ha]
  rfl

/-- C9: with attestation enabled, `verify_output(h, h.attestation_hash)` returns
false for every output `process` produces, whatever the mode and flags:
`_generate_attestation` hashed the fused dict (keys such as
`decision`/`confidence`/`reasoning`/`symbolic_weight`/`probabilistic_weight`),
while `verify_output` rehashes a differently-keyed dict
(`output`/`reasoning_path`/`confidence_score`), so the digests are computed from
different byte sequences; the mismatch is established by computing both digests
concretely in every reachable case. -/
theorem C9_verify_output_never_validates (m : PyMode) (input : JVal) (re vc : Bool)
    (h : HybridOutput) (a : String)
    (hp : process m true input re vc = .ok h)
    (ha : h.attestation_hash = some a) :
    verify_output h a = false := by
  have h1 : processVerifyRoundTrip m input re vc = some (verify_output h a) :=
    roundTrip_eq hp ha
  have hswap : processVerifyRoundTrip m input re vc =
      processVerifyRoundTrip m .jnull re vc := rfl
  have h2 : processVerifyRoundTrip m .jnull re vc = some false := by
    cases m with
    | symbolic => exact roundTrip_symbolic_false re vc
    | probabilistic => exact roundTrip_probabilistic_false re vc
    | hybrid => exact roundTrip_hybrid_false re vc
    | voting => exact roundTrip_hybrid_false re vc
    | other s => exact roundTrip_hybrid_false re vc
  exact Option.some.inj ((h1.symm.trans hswap).trans h2)

/-- Witness for C9: a concrete HYBRID run with attestation enabled whose own
attestation hash fails its own verification. -/
theorem C9_witness :
    ∃ (h : HybridOutput) (a : String), process .hybrid true (.str "loan request") true true = .ok h ∧
      h.attestation_hash = some a ∧ verify_output h a = false :=
  ⟨_, _, rfl, rfl,
    C9_verify_output_never_validates .hybrid (.str "loan request") true true _ _ rfl rfl⟩
